import Mathlib

/-!
Verification development for the sheet-copy engine of the copygoogle
repository (src/logic/sheet_utils.py).  The Python source is shallowly
embedded: pure helpers become Lean functions, the openpyxl utilities
`get_column_letter` and `column_index_from_string` are translated from
the openpyxl algorithm the module imports, exceptions become
`Except String`, and the single bulk write issued by `copy_sheet_data`
is materialised as an explicit `WriteCall` value carried in the `ok`
result (an exception result therefore carries no write).

Modelling conventions, noted once here:
* Python `str` values stored in cells are modelled as `String`; a cell
  value of `None` is `Option.none`.  Non-string scalars are represented
  by their `str(...)` rendering, which is what every use site in the
  source applies to them.
* `str.strip`, `str.isdigit`, `str.isalpha`, `str.upper`, `str.lower`
  are modelled over the ASCII range (the Unicode-aware behaviour of
  CPython agrees with the model on every string appearing in the
  claims).
* Logging callbacks only produce log lines and never alter the data
  flow, so they are not modelled; the skipped-row report of
  copy_sheet_data (source lines 376-382, which prints the count and the
  first 10 entries of `skipped_rows`) is modelled by exposing the
  `skipped_rows` list itself.
* Cell formatting extraction and the second-pass formatting requests
  (source lines 406, 427-433, 478-537) never influence the value write,
  the skipped-row report or the return value, and are not modelled.
-/

/-- Builds a string from a list of Unicode codepoints.  The Python
source file stores its localized function names and messages as literal
(mojibake) character sequences; writing them as codepoint lists keeps
the embedding byte-exact against the source. -/
def mstr (l : List Nat) : String :=
  String.mk (l.map Char.ofNat)

/-- Python str.strip for the leading side: drop whitespace characters. -/
def stripLeft (l : List Char) : List Char :=
  l.dropWhile Char.isWhitespace

/-- Python str.strip(): whitespace removed from both ends. -/
def pyStrip (s : String) : String :=
  String.mk ((stripLeft ((stripLeft s.data).reverse)).reverse)

/-- Python str.upper() (ASCII model). -/
def pyUpper (s : String) : String :=
  String.mk (s.data.map Char.toUpper)

/-- Python str.lower() (ASCII model). -/
def pyLower (s : String) : String :=
  String.mk (s.data.map Char.toLower)

/-- Python str.isdigit() (ASCII model): nonempty and all digits. -/
def pyIsdigit (s : String) : Bool :=
  !s.data.isEmpty && s.data.all Char.isDigit

/-- Python str.isalpha() (ASCII model): nonempty and all alphabetic. -/
def pyIsalpha (s : String) : Bool :=
  !s.data.isEmpty && s.data.all Char.isAlpha

/-- Python str.startswith(pre). -/
def pyStartsWith (s pre : String) : Bool :=
  pre.data.isPrefixOf s.data

/-- Python int(s) on an all-digit string. -/
def pyInt (s : String) : Nat :=
  s.data.foldl (fun acc c => acc * 10 + (c.toNat - 48)) 0

/-- Splits a character list at the first occurrence of c:
before-part and after-part, the delimiter removed
(Python s.split(c, 1) when c occurs in s). -/
def splitFirst (c : Char) : List Char → List Char × List Char
  | [] => ([], [])
  | x :: xs =>
    if x = c then ([], xs)
    else
      let p := splitFirst c xs
      (x :: p.1, p.2)

/-- One step list of Python str.replace: replaces every non-overlapping
occurrence of pat, scanning left to right.  Fuel-driven recursion; the
initial fuel (the list length) always suffices because each step
consumes at least one character. -/
def replaceAux (pat rep : List Char) : Nat → List Char → List Char
  | 0, l => l
  | _ + 1, [] => []
  | fuel + 1, c :: rest =>
    if pat.isPrefixOf (c :: rest) then
      rep ++ replaceAux pat rep fuel ((c :: rest).drop pat.length)
    else
      c :: replaceAux pat rep fuel rest

/-- Python str.replace(pat, rep) for a nonempty pattern (every pattern
in the source's substitution table is nonempty). -/
def pyReplace (s pat rep : String) : String :=
  if pat.data.isEmpty then s
  else String.mk (replaceAux pat.data rep.data s.data.length s.data)

/-! openpyxl.utils: the column letter conversions imported by the
source module, translated from openpyxl's algorithm. -/

/-- Loop body of openpyxl get_column_letter: repeated divmod by 26 with
the 0-remainder adjustment, least-significant letter produced last. -/
def colLetterAux : Nat → Nat → List Char
  | 0, _ => []
  | _ + 1, 0 => []
  | fuel + 1, n =>
    let q := n / 26
    let r := n % 26
    if r = 0 then colLetterAux fuel (q - 1) ++ ['Z']
    else colLetterAux fuel q ++ [Char.ofNat (r + 64)]

/-- The letter form of a 1-based column index (total core of
openpyxl get_column_letter). -/
def colLetterCore (n : Nat) : String :=
  String.mk (colLetterAux n n)

/-- openpyxl get_column_letter: bounds-checked conversion of a 1-based
column index to letters; raises ValueError outside 1..18278. -/
def get_column_letter (n : Nat) : Except String String :=
  if 1 ≤ n ∧ n ≤ 18278 then .ok (colLetterCore n)
  else .error ("Invalid column index " ++ toString n)

/-- openpyxl column_index_from_string: accepts (case-insensitively) the
letter form of the indices 1..18278, i.e. the alphabetic strings of
length 1..3, and returns the 1-based index; anything else raises. -/
def column_index_from_string (s : String) : Except String Nat :=
  let u := pyUpper s
  if !u.data.isEmpty && u.data.length ≤ 3
      && u.data.all (fun c => decide (65 ≤ c.toNat) && decide (c.toNat ≤ 90)) then
    .ok (u.data.foldl (fun acc c => acc * 26 + (c.toNat - 64)) 0)
  else
    .error (s ++ " is not a valid column name")

/-- The index sequence produced by Python
range(start_idx, end_idx + step, step) with step = 1 when
end_idx >= start_idx and step = -1 otherwise
(source lines 37-38 / 86-87). -/
def expandIdx (a b : Nat) : List Nat :=
  if a ≤ b then List.range' a (b + 1 - a)
  else (List.range' b (a + 1 - b)).reverse

/-! Column Resolver (source lines 9-103).  The two resolver functions
are character-identical except for the header map they build and the
text of the header-not-found error, so both are defined through one
core.  The per-sheet header cache (source lines 10-21, 58-70) only
memoises the pure header-map computation and is not modelled. -/

/-- Python dict assignment into an association list: later assignments
win, realised by appending and looking up the last binding. -/
def dictGet (m : List (String × String)) (k : String) : Option String :=
  m.foldl (fun acc p => if p.1 = k then some p.2 else acc) none

/-- An openpyxl cell as seen by get_cell_formula_simple: the attributes
the source inspects, each absent attribute being none. -/
structure PyCell where
  value : Option String
  _value : Option String
  formula : Option String
  _formula : Option String
  data_type : Option String
  deriving Repr, DecidableEq

/-- The cell openpyxl returns for a coordinate never written: all
attributes empty. -/
def emptyPyCell : PyCell := ⟨none, none, none, none, none⟩

/-- An openpyxl worksheet as used by the source: the header row (row 1)
values by 1-based column position, the cell grid keyed by
(row, column letter), max_row, the rows whose row_dimension carries a
truthy hidden flag, and the parent workbook data_only flag. -/
structure ExcelWorksheet where
  row1 : List (Option String)
  cells : List (Nat × String × PyCell)
  max_row : Nat
  hiddenRows : List Nat
  data_only : Bool
  deriving Repr, DecidableEq

/-- A gspread worksheet as used by the source: row_values(1) returns
the header strings ("" for blank cells). -/
structure GoogleWorksheet where
  row1 : List String
  deriving Repr, DecidableEq

/-- Header map of resolve_excel_columns (source lines 15-19): for every
row-1 cell with non-None value, strip().lower() of the value maps to
the cell's column letter. -/
def excelHeaderMap (row1 : List (Option String)) : List (String × String) :=
  (row1.enum.filterMap (fun p =>
    match p.2 with
    | some v => some (pyLower (pyStrip v), colLetterCore (p.1 + 1))
    | none => none))

/-- Header map of resolve_google_columns (source lines 63-67): for
every truthy (nonempty) header string, strip().lower() maps to the
column letter of its position. -/
def googleHeaderMap (row1 : List String) : List (String × String) :=
  (row1.enum.filterMap (fun p =>
    if p.2 ≠ "" then some (pyLower (pyStrip p.2), colLetterCore (p.1 + 1))
    else none))

/-- Range detection of source lines 30-41: the delimiters are tried in
the order "-", ":"; the first delimiter present in the specifier splits
it once. -/
def splitRange (s : String) : Option (String × String) :=
  if s.data.contains '-' then
    let p := splitFirst '-' s.data
    some (String.mk p.1, String.mk p.2)
  else if s.data.contains ':' then
    let p := splitFirst ':' s.data
    some (String.mk p.1, String.mk p.2)
  else none

/-- Python list indexing [0] on the recursive resolution result
(source lines 33-34): an empty list raises IndexError. -/
def firstOrIndexError (l : List String) : Except String String :=
  match l with
  | [] => .error "list index out of range"
  | x :: _ => .ok x

/-- Resolution of one raw specifier (one iteration of the loop at
source lines 24-53): strip; blank specifiers contribute nothing; range
syntax recursively resolves both bounds and expands between them;
all-digit specifiers are 1-based indices; all-alphabetic specifiers are
literal column letters (uppercased); anything else is a header lookup,
a miss raising ValueError with the supplied message.  The recursion of
the source (resolving a range bound re-enters the resolver) is realised
with fuel; each recursive call strictly shrinks the specifier, so the
initial fuel length+1 always suffices and the fuel-exhaustion branch is
unreachable. -/
def resolveSpecF (hm : List (String × String)) (notFound : String → String) :
    Nat → String → Except String (List String)
  | 0, _ => .error "maximum recursion depth exceeded"
  | fuel + 1, col => do
    let col_str := pyStrip col
    if col_str = "" then .ok []
    else match splitRange col_str with
      | some (start, stop) => do
        let startRes ← resolveSpecF hm notFound fuel start
        let start_letter ← firstOrIndexError startRes
        let stopRes ← resolveSpecF hm notFound fuel stop
        let end_letter ← firstOrIndexError stopRes
        let start_idx ← column_index_from_string start_letter
        let end_idx ← column_index_from_string end_letter
        (expandIdx start_idx end_idx).mapM get_column_letter
      | none =>
        if pyIsdigit col_str then do
          let letter ← get_column_letter (pyInt col_str)
          .ok [letter]
        else if pyIsalpha col_str then .ok [pyUpper col_str]
        else
          match dictGet hm (pyLower col_str) with
          | some letter => .ok [letter]
          | none => .error (notFound col)

/-- The resolver loop over a specifier list: contributions are
concatenated in order; the first raised error aborts. -/
def resolveColumnsCore (hm : List (String × String)) (notFound : String → String)
    (columns : List String) : Except String (List String) := do
  let parts ← columns.mapM (fun col => resolveSpecF hm notFound (col.length + 1) col)
  .ok parts.flatten

/-- Message of the Excel header-not-found ValueError (source line 53),
with the raw specifier interpolated between the quote characters. -/
def excelNotFoundMsg (col : String) : String :=
  mstr [0x2013,0xf3,0x2013,0x221e,0x2013,0x2265,0x2013,0xe6,0x2013,0xaa,0x2013,0xe6,0x2013,0x2264,0x2013,0xe6,0x2013,0x222b,0x20,0x27]
    ++ col ++
  mstr [0x27,0x20,0x2013,0x3a9,0x2013,0xb5,0x20,0x2013,0x3a9,0x2013,0x221e,0x2013,0x3c0,0x2013,0xa5,0x2013,0xb5,0x2013,0x3a9,0x20,0x2013,0x2264,0x20,0x45,0x78,0x63,0x65,0x6c,0x20,0x2013,0xaa,0x2013,0x220f,0x2014,0xc5,0x2014,0xc7,0x2013,0xb5]

/-- Message of the Google header-not-found ValueError (source line 102). -/
def googleNotFoundMsg (col : String) : String :=
  mstr [0x2013,0xf3,0x2013,0x221e,0x2013,0x2265,0x2013,0xe6,0x2013,0xaa,0x2013,0xe6,0x2013,0x2264,0x2013,0xe6,0x2013,0x222b,0x20,0x27]
    ++ col ++
  mstr [0x27,0x20,0x2013,0x3a9,0x2013,0xb5,0x20,0x2013,0x3a9,0x2013,0x221e,0x2013,0x3c0,0x2013,0xa5,0x2013,0xb5,0x2013,0x3a9,0x20,0x2013,0x2264,0x20,0x47,0x6f,0x6f,0x67,0x6c,0x65,0x20,0x2013,0xaa,0x2013,0x220f,0x2014,0xc5,0x2014,0xc7,0x2013,0xb5]

/-- resolve_excel_columns (source lines 9-54). -/
def resolve_excel_columns (sheet : ExcelWorksheet) (columns : List String) :
    Except String (List String) :=
  resolveColumnsCore (excelHeaderMap sheet.row1) excelNotFoundMsg columns

/-- resolve_google_columns (source lines 57-103). -/
def resolve_google_columns (worksheet : GoogleWorksheet) (columns : List String) :
    Except String (List String) :=
  resolveColumnsCore (googleHeaderMap worksheet.row1) googleNotFoundMsg columns

/-! Formula Translator (source lines 184-222). -/

/-- The substitution table of convert_excel_formula_to_google (source
lines 188-215), in the source's (insertion) order.  The localized
function names are written as the exact codepoint sequences the source
file contains. -/
def replacements : List (String × String) := [
  (mstr [0x2013,0xfc,0x2013,0x2020,0x2013,0xfb,0x2013,0xfc,0x2013,0xf2,0x2013,0xb0,0x2013,0xf9], "UPPER"),
  (mstr [0x2013,0xb0,0x2013,0xa2,0x2013,0x2020,0x2013,0xfb,0x2013,0xdf,0x2013,0xf9], "LOWER"),
  (mstr [0x2013,0xfc,0x2013,0x2020,0x2013,0xfb,0x2013,0xfc,0x2013,0xf9,0x2013,0xea,0x2013,0xdf], "PROPER"),
  (mstr [0x2013,0xb0,0x2013,0xb6,0x2013,0xef,0x2013,0xfc,0x2013,0xf2,0x2013,0xa2,0x2013,0xa8], "CONCATENATE"),
  (mstr [0x2013,0xee,0x2013,0xf5,0x2013,0xb0,0x2013,0xa2,0x2013,0x2020], "LEN"),
  (mstr [0x2013,0xf5,0x2013,0xef,0x2013,0xed,0x2013,0xb0,0x2013,0xf2,0x2013,0xfa,0x2013,0xed], "LEFT"),
  (mstr [0x2013,0xfc,0x2013,0x2020,0x2013,0xea,0x2013,0xed,0x2013,0xb0,0x2013,0xf2,0x2013,0xfa,0x2013,0xed], "RIGHT"),
  (mstr [0x2013,0xfc,0x2013,0xb0,0x2013,0xa2,0x2013,0x2020], "MID"),
  (mstr [0x2013,0xf9,0x2013,0xea,0x2013,0xf4,0x2013,0xa2,0x2013,0xf2], "FIND"),
  (mstr [0x2013,0xf3,0x2013,0xea,0x2013,0xfa,0x2013,0xef,0x2013,0xf9,0x2013,0xf2,0x2013,0xa2,0x2013,0xa8], "SUBSTITUTE"),
  (mstr [0x2013,0xfb,0x2013,0xf6,0x2013,0x2020,0x2013,0xa3,0x2013,0xec,0x2013,0xf5], "ROUND"),
  (mstr [0x2013,0xb6,0x2013,0xef,0x2013,0xf5,0x2013,0xfb,0x2013,0xef], "INT"),
  (mstr [0x2013,0xb0,0x2013,0xa3,0x2013,0xfa,0x2013,0xfa], "SUM"),
  (mstr [0x2013,0xb0,0x2013,0x2020,0x2013,0xf3,0x2013,0xf9,0x2013,0xea,0x2013,0xdf], "AVERAGE"),
  (mstr [0x2013,0xb0,0x2013,0xdf,0x2013,0xc5,0x2013,0xa2], "COUNT"),
  (mstr [0x2013,0xb0,0x2013,0xdf,0x2013,0xc5,0x2013,0xa2,0x2013,0xf3], "COUNTA"),
  (mstr [0x2013,0xfa,0x2013,0xea,0x2013,0xf6,0x2013,0xb0], "MAX"),
  (mstr [0x2013,0xfa,0x2013,0xf2,0x2013,0xf9], "MIN"),
  (mstr [0x2013,0xef,0x2013,0xb0,0x2013,0xf5,0x2013,0xf2], "IF"),
  (mstr [0x2013,0xf2], "AND"),
  (mstr [0x2013,0xf2,0x2013,0xf5,0x2013,0xf2], "OR"),
  (mstr [0x2013,0xf9,0x2013,0xef], "NOT"),
  (mstr [0x2013,0xed,0x2013,0xfc,0x2013,0xef,0x2013,0x2020], "VLOOKUP"),
  (mstr [0x2013,0xec,0x2013,0xfc,0x2013,0x2020], "HLOOKUP"),
  (mstr [0x2013,0xf2,0x2013,0xf9,0x2013,0xee,0x2013,0xef,0x2013,0xf6,0x2013,0xb0], "INDEX"),
  (mstr [0x2013,0xfc,0x2013,0xfb,0x2013,0xf2,0x2013,0xb0,0x2013,0xf6,0x2013,0xfc,0x4f,0x5a], "MATCH")]

/-- convert_excel_formula_to_google (source lines 184-222): strings
that are falsy or do not start with the formula marker pass through;
otherwise every table entry is applied, in table order, as a literal
substring replacement. -/
def convert_excel_formula_to_google (formula : String) : String :=
  if formula = "" || !pyStartsWith formula "=" then formula
  else replacements.foldl (fun acc p => pyReplace acc p.1 p.2) formula

/-! Cell Extractor (source lines 225-256 and 321-374). -/

/-- The attribute scan of get_cell_formula_simple (source lines
241-250): attributes are tried in order; a falsy value is skipped; a
truthy value starting with the marker is returned as is; a truthy
value of a formula attribute is returned with the marker prepended;
any other truthy value falls through to the next attribute. -/
def formulaAttrScan : List (Option String × Bool) → Option String
  | [] => none
  | (val, isFormulaAttr) :: rest =>
    match val with
    | none => formulaAttrScan rest
    | some v =>
      if v = "" then formulaAttrScan rest
      else if pyStartsWith v "=" then some v
      else if isFormulaAttr then some ("=" ++ v)
      else formulaAttrScan rest

/-- get_cell_formula_simple (source lines 225-256): scan the value,
_value, formula and _formula attributes; failing that, a cell whose
data_type is "f" yields the placeholder formula; otherwise None. -/
def get_cell_formula_simple (cell : PyCell) : Option String :=
  match formulaAttrScan
      [(cell.value, false), (cell._value, false),
       (cell.formula, true), (cell._formula, true)] with
  | some f => some f
  | none =>
    if cell.data_type = some "f" then some "=FORMULA_EXISTS_BUT_CANNOT_READ"
    else none

/-- Cell access excel_sheet[letter ++ row]: the stored cell at that
coordinate, or the empty cell openpyxl materialises for an unwritten
coordinate. -/
def cellAt (ws : ExcelWorksheet) (row : Nat) (col : String) : PyCell :=
  match ws.cells.find? (fun e => e.1 == row && e.2.1 == col) with
  | some e => e.2.2
  | none => emptyPyCell

/-- One extracted cell record (source lines 363-367, minus the
formatting field, which never influences values, skipping or the
return count). -/
structure CellRecord where
  value : Option String
  formula : Option String
  deriving Repr, DecidableEq

/-- Extraction of one cell (source lines 338-353): the formula always
comes from the data_only=False sheet; the value comes from the values
sheet when one is supplied and from the same cell otherwise. -/
def mkCellRecord (excel : ExcelWorksheet) (vals : Option ExcelWorksheet)
    (row : Nat) (col : String) : CellRecord :=
  let formula_cell := cellAt excel row col
  let cell_formula := get_cell_formula_simple formula_cell
  let cell_value :=
    match vals with
    | some vs => (cellAt vs row col).value
    | none => formula_cell.value
  { value := cell_value, formula := cell_formula }

/-- The real-data test of one cell (source lines 356-361): a non-None
formula, or a non-None value whose str().strip() is nonempty. -/
def cellHasData (c : CellRecord) : Bool :=
  c.formula.isSome ||
    (match c.value with
     | some v => pyStrip v != ""
     | none => false)

/-- The cell records of one row, one per resolved source column, in
column order (inner loop at source lines 338-367). -/
def readRow (excel : ExcelWorksheet) (vals : Option ExcelWorksheet)
    (source_cols : List String) (row : Nat) : List CellRecord :=
  source_cols.map (fun col => mkCellRecord excel vals row col)

/-- has_data for one row (source lines 335, 356-361). -/
def rowHasData (excel : ExcelWorksheet) (vals : Option ExcelWorksheet)
    (source_cols : List String) (row : Nat) : Bool :=
  (readRow excel vals source_cols row).any cellHasData

/-- The scanned row numbers range(start_row, max_row + 1)
(source line 331). -/
def scannedRows (excel : ExcelWorksheet) (start_row : Nat) : List Nat :=
  List.range' start_row (excel.max_row + 1 - start_row)

/-- rows_data after the extraction loop (source lines 326-371): the
cell records of every scanned row with real data, in row order. -/
def rowsData (excel : ExcelWorksheet) (vals : Option ExcelWorksheet)
    (source_cols : List String) (start_row : Nat) : List (List CellRecord) :=
  ((scannedRows excel start_row).filter
    (fun r => rowHasData excel vals source_cols r)).map
    (fun r => readRow excel vals source_cols r)

/-- Reason string of a skipped hidden row (source line 373). -/
def hiddenReason : String :=
  mstr [0x2014,0xc5,0x2013,0x222b,0x2014,0xc4,0x2014,0xe3,0x2014,0xc7,0x2013,0x221e,0x2014,0xe8,0x20,0x2014,0xc5,0x2014,0xc7,0x2014,0xc4,0x2013,0xe6,0x2013,0x222b,0x2013,0x221e]

/-- Reason string of a skipped row without data (source line 373). -/
def noDataReason : String :=
  mstr [0x2013,0x3a9,0x2013,0xb5,0x2014,0xc7,0x20,0x2013,0xa5,0x2013,0x221e,0x2013,0x3a9,0x2013,0x3a9,0x2014,0xe3,0x2014,0xd6]

/-- skipped_rows after the extraction loop (source lines 327, 372-374):
every scanned row without real data, paired with its reason; a hidden
flag only selects the reason text.  copy_sheet_data reports this list
through the log callback: its length and its first 10 entries (source
lines 377-382). -/
def skippedRows (excel : ExcelWorksheet) (vals : Option ExcelWorksheet)
    (source_cols : List String) (start_row : Nat) : List (Nat × String) :=
  ((scannedRows excel start_row).filter
    (fun r => !rowHasData excel vals source_cols r)).map
    (fun r => (r, if excel.hiddenRows.contains r then hiddenReason else noDataReason))

/-! Batch Writer and Copy Orchestrator (source lines 259-549). -/

/-- Value rendering of one cell record (source lines 413-425): a truthy
formula is translated; otherwise the value, with None becoming the
empty string. -/
def renderCell (c : CellRecord) : String :=
  match c.formula with
  | some f =>
    if f ≠ "" then convert_excel_formula_to_google f
    else match c.value with
      | some v => v
      | none => ""
  | none =>
    match c.value with
    | some v => v
    | none => ""

/-- values_to_update (source lines 405-435): every retained row
rendered cell by cell, in row order. -/
def valuesToUpdate (excel : ExcelWorksheet) (vals : Option ExcelWorksheet)
    (source_cols : List String) (start_row : Nat) : List (List String) :=
  (rowsData excel vals source_cols start_row).map (fun row => row.map renderCell)

/-- Python min(c0 :: rest) (source line 449). -/
def listMin1 (c0 : Nat) (rest : List Nat) : Nat := rest.foldl Nat.min c0

/-- Python max(c0 :: rest) (source line 450). -/
def listMax1 (c0 : Nat) (rest : List Nat) : Nat := rest.foldl Nat.max c0

/-- One output row of the bounding-rectangle matrix (source lines
461-463): a row of num_cols empty strings, overwritten at each
index_map offset with the corresponding value, in order. -/
def spreadRow (num_cols : Nat) (index_map : List Nat) (row : List String) :
    List String :=
  (row.zip index_map).foldl (fun acc p => acc.set p.2 p.1)
    (List.replicate num_cols "")

/-- The single bulk write issued by copy_sheet_data (source lines
447-473), materialised: the bounding column indices, the row span, the
A1-style range string and the dense value matrix. -/
structure WriteCall where
  start_col : Nat
  end_col : Nat
  start_row : Nat
  end_row : Nat
  target_range : String
  values : List (List String)
  deriving Repr, DecidableEq

/-- ValueError message of the column-count check (source line 295). -/
def lengthMismatchMsg : String :=
  mstr [0x2013,0xf6,0x2013,0xe6,0x2013,0xaa,0x2013,0x220f,0x2014,0xe1,0x2013,0xb5,0x2014,0xc5,0x2014,0xc7,0x2013,0x2264,0x2013,0xe6,0x20,0x2013,0x220f,0x2014,0xc5,0x2014,0xd6,0x2013,0xe6,0x2013,0xa5,0x2013,0x3a9,0x2014,0xe3,0x2014,0xd6,0x20,0x2013,0x220f,0x20,0x2014,0xdc,0x2013,0xb5,0x2013,0xaa,0x2013,0xb5,0x2013,0x2264,0x2014,0xe3,0x2014,0xd6,0x20,0x2013,0x222b,0x2013,0xe6,0x2013,0xaa,0x2013,0xe6,0x2013,0x3a9,0x2013,0xe6,0x2013,0x222b,0x20,0x2013,0xa5,0x2013,0xe6,0x2013,0xaa,0x2013,0x2202,0x2013,0x3a9,0x2013,0xe6,0x20,0x2014,0xc5,0x2013,0xe6,0x2013,0x2264,0x2013,0xf8,0x2013,0x221e,0x2013,0xa5,0x2013,0x221e,0x2014,0xc7,0x2014,0xe5]

/-- ValueError message of the first workbook check (source line 282). -/
def dataOnlyFalseMsg : String :=
  "excel_sheet must come from a workbook loaded with data_only=False"

/-- ValueError message of the second workbook check (source line 284). -/
def dataOnlyTrueMsg : String :=
  "excel_sheet_values must come from a workbook loaded with data_only=True"

/-- copy_sheet_data (source lines 259-549).  The result is the returned
row count together with the bulk value write issued against the Google
worksheet, if one was issued; raising ValueError is the error case, in
which no write happens (the update call at source line 469 is only
reached on the success path).  Steps, in source order: the two workbook
data_only checks; resolution of both column lists; the resolved-length
check; the empty-span early return; the extraction loop; the rendering
loop; the empty-data early return; the bounding-rectangle assembly and
the single update call. -/
def copy_sheet_data (excel_sheet : ExcelWorksheet)
    (google_worksheet : GoogleWorksheet)
    (column_mapping_source column_mapping_target : List String)
    (start_row : Nat) (excel_sheet_values : Option ExcelWorksheet) :
    Except String (Nat × Option WriteCall) :=
  if excel_sheet.data_only then .error dataOnlyFalseMsg
  else if (match excel_sheet_values with
           | some vs => !vs.data_only
           | none => false) then .error dataOnlyTrueMsg
  else match resolve_excel_columns excel_sheet column_mapping_source with
  | .error e => .error e
  | .ok source_cols =>
    match resolve_google_columns google_worksheet column_mapping_target with
    | .error e => .error e
    | .ok target_cols =>
      if source_cols.length ≠ target_cols.length then .error lengthMismatchMsg
      else if excel_sheet.max_row < start_row then .ok (0, none)
      else
        let rows_data := rowsData excel_sheet excel_sheet_values source_cols start_row
        let rows_with_values := rows_data.length
        let values_to_update := rows_data.map (fun row => row.map renderCell)
        if values_to_update.isEmpty then .ok (0, none)
        else match target_cols.mapM column_index_from_string with
        | .error e => .error e
        | .ok col_numbers =>
          match col_numbers with
          | [] => .error "min() arg is an empty sequence"
          | c0 :: crest =>
            let min_col := listMin1 c0 crest
            let max_col := listMax1 c0 crest
            match get_column_letter min_col, get_column_letter max_col with
            | .error e, _ => .error e
            | _, .error e => .error e
            | .ok start_col_letter, .ok end_col_letter =>
              let end_row := start_row + values_to_update.length - 1
              let target_range := start_col_letter ++ toString start_row ++ ":"
                ++ end_col_letter ++ toString end_row
              let num_cols := max_col - min_col + 1
              let index_map := col_numbers.map (fun c => c - min_col)
              let formatted_values := values_to_update.map
                (fun row => spreadRow num_cols index_map row)
              .ok (rows_with_values, some
                { start_col := min_col, end_col := max_col,
                  start_row := start_row, end_row := end_row,
                  target_range := target_range, values := formatted_values })

/-! Concrete fixtures used by the claim theorems. -/

/-- A Google worksheet with an empty header row. -/
def gws0 : GoogleWorksheet := ⟨[]⟩

/-- A plain text cell as openpyxl represents one: the value attribute
set, data_type "s". -/
def textCell (v : String) : PyCell :=
  { value := some v, _value := none, formula := none, _formula := none,
    data_type := some "s" }

/-- An Excel sheet whose row 1 holds the header "Revenue" in column A. -/
def revSheet : ExcelWorksheet :=
  { row1 := [some "Revenue"], cells := [(1, "A", textCell "Revenue")],
    max_row := 1, hiddenRows := [], data_only := false }

/-- An Excel sheet with one data row: A2 = "x", max_row 2. -/
def sheetOneDataRow : ExcelWorksheet :=
  { row1 := [], cells := [(2, "A", textCell "x")], max_row := 2,
    hiddenRows := [], data_only := false }

/-- The same one-data-row sheet with row 2 flagged hidden at the
row-dimension level. -/
def sheetHiddenDataRow : ExcelWorksheet :=
  { row1 := [], cells := [(2, "A", textCell "x")], max_row := 2,
    hiddenRows := [2], data_only := false }

/-- The row-compaction example sheet: rows 1..4 where rows 2 and 4 hold
data and rows 1 and 3 are empty. -/
def sheetGappyRows : ExcelWorksheet :=
  { row1 := [], cells := [(2, "A", textCell "x"), (4, "A", textCell "y")],
    max_row := 4, hiddenRows := [], data_only := false }

/-- A sheet whose only cell A2 holds the whitespace-only value " ". -/
def sheetBlankValueRow : ExcelWorksheet :=
  { row1 := [], cells := [(2, "A", textCell " ")], max_row := 2,
    hiddenRows := [], data_only := false }

/-- A sheet taken from a workbook loaded with data_only=True. -/
def sheetDataOnly : ExcelWorksheet :=
  { row1 := [], cells := [], max_row := 0, hiddenRows := [], data_only := true }

/-- A values sheet wrongly taken from a data_only=False workbook. -/
def wrongValuesSheet : ExcelWorksheet :=
  { row1 := [], cells := [], max_row := 0, hiddenRows := [], data_only := false }

/-- An Excel sheet whose row 1 holds the header "Total Rev" (a header
that, as a specifier, is neither all-alphabetic nor all-digit). -/
def headerSheet : ExcelWorksheet :=
  { row1 := [some "Total Rev"], cells := [(1, "A", textCell "Total Rev")],
    max_row := 1, hiddenRows := [], data_only := false }

/-- The table key the source spells for the localized COUNTA name
(the characters of the mojibake rendering of that name). -/
def countaName : String :=
  mstr [0x2013,0xb0,0x2013,0xdf,0x2013,0xc5,0x2013,0xa2,0x2013,0xf3]

/-- The table key for the localized SUM name. -/
def sumName : String := mstr [0x2013,0xb0,0x2013,0xa3,0x2013,0xfa,0x2013,0xfa]

/-- The table key for the localized OR name. -/
def orName : String := mstr [0x2013,0xf2,0x2013,0xf5,0x2013,0xf2]

/-! Helper lemmas (shared across claim theorems). -/

/-- A specifier that strips to the empty string makes the resolver loop
continue without touching the result (source lines 26-27 / 75-76). -/
theorem resolveSpecF_blank (hm : List (String × String)) (nf : String → String)
    (fuel : Nat) (s : String) (h : pyStrip s = "") :
    resolveSpecF hm nf (fuel + 1) s = .ok [] := by
  unfold resolveSpecF
  rw [h]
  rfl

/-- Dropping a blank leading specifier from the resolver input leaves
the resolver result unchanged. -/
theorem resolveColumnsCore_blank_cons (hm : List (String × String))
    (nf : String → String) (s : String) (rest : List String)
    (h : pyStrip s = "") :
    resolveColumnsCore hm nf (s :: rest) = resolveColumnsCore hm nf rest := by
  unfold resolveColumnsCore
  rw [List.mapM_cons]
  rw [resolveSpecF_blank hm nf s.length s h]
  cases hrest : rest.mapM (fun col => resolveSpecF hm nf (col.length + 1) col) with
  | error e => rfl
  | ok parts => rfl

/-! Claim C10. -/

/-- C10: copy_sheet_data raises ValueError first of all whenever the
excel sheet comes from a data_only=True workbook, or a values sheet is
supplied that does not come from a data_only=True workbook; the error
is raised before resolution, extraction or writing (the result carries
no write call), for arbitrary column lists and start row. -/
theorem c10_data_only_guards :
    (∀ (excel : ExcelWorksheet) (gws : GoogleWorksheet)
        (src tgt : List String) (sr : Nat) (vals : Option ExcelWorksheet),
        excel.data_only = true →
        copy_sheet_data excel gws src tgt sr vals = .error dataOnlyFalseMsg) ∧
    (∀ (excel : ExcelWorksheet) (gws : GoogleWorksheet)
        (src tgt : List String) (sr : Nat) (vs : ExcelWorksheet),
        excel.data_only = false → vs.data_only = false →
        copy_sheet_data excel gws src tgt sr (some vs) = .error dataOnlyTrueMsg) := by
  constructor
  · intro excel gws src tgt sr vals h
    unfold copy_sheet_data
    rw [h]
    rfl
  · intro excel gws src tgt sr vs h1 h2
    unfold copy_sheet_data
    rw [h1]
    simp [h2]

/-- C10 witness: both guards fire on concrete worksheets. -/
theorem c10_data_only_guards_witness :
    copy_sheet_data sheetDataOnly gws0 ["A"] ["A"] 1 none
        = .error dataOnlyFalseMsg ∧
    copy_sheet_data sheetOneDataRow gws0 ["A"] ["A"] 2 (some wrongValuesSheet)
        = .error dataOnlyTrueMsg :=
  ⟨c10_data_only_guards.1 sheetDataOnly gws0 ["A"] ["A"] 1 none rfl,
   c10_data_only_guards.2 sheetOneDataRow gws0 ["A"] ["A"] 2 wrongValuesSheet rfl rfl⟩

/-! Claim C8. -/

/-- C8: range expansion is consistent with elementwise resolution:
on any sheet, the single specifier A-C resolves exactly as the list
A, B, C does, and the descending range C-A resolves to C, B, A
(inclusive bounds, direction from the bound order). -/
theorem c8_range_expansion :
    (∀ sheet : ExcelWorksheet,
        resolve_excel_columns sheet ["A-C"] = resolve_excel_columns sheet ["A", "B", "C"] ∧
        resolve_excel_columns sheet ["C-A"] = .ok ["C", "B", "A"]) ∧
    (∀ ws : GoogleWorksheet,
        resolve_google_columns ws ["A-C"] = resolve_google_columns ws ["A", "B", "C"] ∧
        resolve_google_columns ws ["C-A"] = .ok ["C", "B", "A"]) :=
  ⟨fun _ => ⟨rfl, rfl⟩, fun _ => ⟨rfl, rfl⟩⟩

/-! Claim C3. -/

/-- C3 counterexample: the localized COUNTA name is table-listed with
replacement COUNTA, yet converting a formula that calls it does not
substitute that name with COUNTA: the earlier COUNT entry, a strict
prefix of it, fires first and leaves a mangled name. -/
theorem c3_substitution_counterexample :
    (countaName, "COUNTA") ∈ replacements ∧
    convert_excel_formula_to_google ("=" ++ countaName ++ "(A1)")
      = "=COUNT" ++ mstr [0x2013, 0xf3] ++ "(A1)" ∧
    convert_excel_formula_to_google ("=" ++ countaName ++ "(A1)")
      ≠ "=COUNTA(A1)" := by
  refine ⟨by decide, by decide, by decide⟩

/-- C3 (amended): non-formula strings pass through unchanged; formula
strings receive the table of literal substring replacements in table
order, which substitutes an isolated listed name correctly (SUM) but
does not guarantee that every listed name is substituted with its own
replacement nor that non-listed text is untouched: a name containing an
earlier entry as a substring is mangled by that earlier replacement
(the localized OR name becomes AND-mangled text, not OR). -/
theorem c3_translation_behaviour :
    (∀ s : String, pyStartsWith s "=" = false →
        convert_excel_formula_to_google s = s) ∧
    convert_excel_formula_to_google ("=" ++ sumName ++ "(A1:B2)") = "=SUM(A1:B2)" ∧
    convert_excel_formula_to_google ("=" ++ orName ++ "(A1;B1)")
      = "=AND" ++ mstr [0x2013, 0xf5] ++ "AND(A1;B1)" := by
  refine ⟨?_, by decide, by decide⟩
  intro s h
  unfold convert_excel_formula_to_google
  rw [h]
  simp

/-- C3 witness: the pass-through case at a concrete non-formula
string. -/
theorem c3_translation_behaviour_witness :
    pyStartsWith "hello" "=" = false ∧
    convert_excel_formula_to_google "hello" = "hello" :=
  ⟨by decide, c3_translation_behaviour.1 "hello" (by decide)⟩

/-! Claim C1. -/

/-- C1 counterexample: with the header Revenue present in row 1
(mapping, per the header map, to column A), the specifier Revenue does
not resolve through the header lookup: being all-alphabetic it is
taken as a literal column token and uppercased, although it is 7
characters long. -/
theorem c1_revenue_counterexample :
    resolve_excel_columns revSheet ["Revenue"] = .ok ["REVENUE"] ∧
    dictGet (excelHeaderMap revSheet.row1) "revenue" = some "A" ∧
    ("REVENUE" : String) ≠ "A" := by
  refine ⟨rfl, rfl, by decide⟩

/-! Claim C2. -/

/-- C2 counterexample: a copy call whose source and target column
lists have different lengths (1 versus 2) does not fail: the range
specifier expands during resolution, the resolved lists agree, and the
copy reads the sheet and issues a write. -/
theorem c2_input_length_counterexample :
    (["A-B"] : List String).length ≠ (["A", "B"] : List String).length ∧
    copy_sheet_data sheetOneDataRow gws0 ["A-B"] ["A", "B"] 2 none =
      .ok (1, some { start_col := 1, end_col := 2, start_row := 2, end_row := 2,
                     target_range := "A2:B2", values := [["x", ""]] }) :=
  ⟨by decide, rfl⟩

/-- C2 (amended): the equal-length invariant is enforced on the
RESOLVED column lists: whenever the resolved source and target lists
have different lengths, copy_sheet_data raises the configuration
ValueError before any extraction or write (the error result carries no
write call).  The lengths of the input lists alone do not determine
failure, since range expansion and blank-specifier dropping change the
lengths during resolution. -/
theorem c2_resolved_length_check
    (excel : ExcelWorksheet) (gws : GoogleWorksheet)
    (src tgt : List String) (sr : Nat) (vals : Option ExcelWorksheet)
    (sc tc : List String)
    (hd : excel.data_only = false)
    (hv : ∀ vs, vals = some vs → vs.data_only = true)
    (hsc : resolve_excel_columns excel src = .ok sc)
    (htc : resolve_google_columns gws tgt = .ok tc)
    (hlen : sc.length ≠ tc.length) :
    copy_sheet_data excel gws src tgt sr vals = .error lengthMismatchMsg := by
  unfold copy_sheet_data
  rw [hd, hsc, htc]
  cases vals with
  | none => simp [hlen]
  | some vs => simp [hv vs rfl, hlen]

/-- C2 witness: on concrete sheets, resolved lists of lengths 1 and 2
make the copy fail with the configuration error. -/
theorem c2_resolved_length_check_witness :
    resolve_excel_columns sheetOneDataRow ["A", ""] = .ok ["A"] ∧
    resolve_google_columns gws0 ["A", "B"] = .ok ["A", "B"] ∧
    copy_sheet_data sheetOneDataRow gws0 ["A", ""] ["A", "B"] 2 none =
      .error lengthMismatchMsg :=
  ⟨rfl, rfl,
   c2_resolved_length_check sheetOneDataRow gws0 ["A", ""] ["A", "B"] 2 none
     ["A"] ["A", "B"] rfl (fun vs h => by cases h) rfl rfl (by decide)⟩

/-! Claim C9. -/

/-- C9: specifiers that are empty or whitespace-only after stripping
are silently dropped by both resolvers (no error, no appended letter),
so the resolved list can be shorter than the input list; consequently
the equal-length check of copy_sheet_data acts on the resolved lists:
a blank entry lets unequal-length inputs pass the check and makes
equal-length inputs fail it. -/
theorem c9_blank_specifiers_dropped :
    (∀ (sheet : ExcelWorksheet) (s : String) (rest : List String),
        pyStrip s = "" →
        resolve_excel_columns sheet (s :: rest) = resolve_excel_columns sheet rest) ∧
    (∀ (ws : GoogleWorksheet) (s : String) (rest : List String),
        pyStrip s = "" →
        resolve_google_columns ws (s :: rest) = resolve_google_columns ws rest) ∧
    ((["A", ""] : List String).length ≠ (["A"] : List String).length ∧
      copy_sheet_data sheetOneDataRow gws0 ["A", ""] ["A"] 2 none =
        .ok (1, some { start_col := 1, end_col := 1, start_row := 2, end_row := 2,
                       target_range := "A2:A2", values := [["x"]] })) ∧
    ((["A", ""] : List String).length = (["A", "B"] : List String).length ∧
      copy_sheet_data sheetOneDataRow gws0 ["A", ""] ["A", "B"] 2 none =
        .error lengthMismatchMsg) := by
  refine ⟨?_, ?_, ⟨by decide, rfl⟩, ⟨by decide, rfl⟩⟩
  · intro sheet s rest h
    exact resolveColumnsCore_blank_cons _ _ s rest h
  · intro ws s rest h
    exact resolveColumnsCore_blank_cons _ _ s rest h

/-- C9 witness: a whitespace-only specifier is dropped on a concrete
sheet. -/
theorem c9_blank_specifiers_dropped_witness :
    pyStrip " " = "" ∧
    resolve_excel_columns revSheet [" ", "A"] = resolve_excel_columns revSheet ["A"] :=
  ⟨by decide, c9_blank_specifiers_dropped.1 revSheet " " ["A"] (by decide)⟩

/-! Claim C4. -/

/-- C4 counterexample: row 2 is flagged hidden at the row-dimension
level and holds data; it is not excluded from the extracted output (its
value is written) and it does not appear in the skipped-row report. -/
theorem c4_hidden_data_row_counterexample :
    sheetHiddenDataRow.hiddenRows.contains 2 = true ∧
    copy_sheet_data sheetHiddenDataRow gws0 ["A"] ["A"] 2 none =
      .ok (1, some { start_col := 1, end_col := 1, start_row := 2, end_row := 2,
                     target_range := "A2:A2", values := [["x"]] }) ∧
    skippedRows sheetHiddenDataRow none ["A"] 2 = [] :=
  ⟨rfl, rfl, rfl⟩

/-- C4 (amended): hidden-row flags never cause exclusion.  A scanned
row with real data is always part of the extractor output, hidden or
not; only rows without real data are excluded, and each excluded row
appears in the reported skipped-row list paired with the hidden-row
reason when it is flagged hidden and with the no-data reason otherwise
(the report prints the count of that list and its first 10 entries). -/
theorem c4_hidden_row_policy :
    ∀ (excel : ExcelWorksheet) (vals : Option ExcelWorksheet)
      (source_cols : List String) (start_row r : Nat),
      r ∈ scannedRows excel start_row →
      (rowHasData excel vals source_cols r = true →
        readRow excel vals source_cols r ∈ rowsData excel vals source_cols start_row) ∧
      (rowHasData excel vals source_cols r = false →
        (r, if excel.hiddenRows.contains r then hiddenReason else noDataReason)
          ∈ skippedRows excel vals source_cols start_row) := by
  intro excel vals sc sr r hr
  refine ⟨fun hd => ?_, fun hd => ?_⟩
  · exact List.mem_map_of_mem _ (List.mem_filter.2 ⟨hr, hd⟩)
  · refine List.mem_map_of_mem _ (List.mem_filter.2 ⟨hr, ?_⟩)
    simp [hd]

/-- C4 witness: the hidden data row of the counterexample sheet is
retained by the extractor. -/
theorem c4_hidden_row_policy_witness :
    2 ∈ scannedRows sheetHiddenDataRow 2 ∧
    rowHasData sheetHiddenDataRow none ["A"] 2 = true ∧
    readRow sheetHiddenDataRow none ["A"] 2 ∈ rowsData sheetHiddenDataRow none ["A"] 2 :=
  ⟨by decide, rfl,
   (c4_hidden_row_policy sheetHiddenDataRow none ["A"] 2 2 (by decide)).1 rfl⟩

/-! Claim C6 counterexample. -/

/-- C6 counterexample: cell A2 holds the non-null, non-empty string
value consisting of one space and bears no formula; the claim retains
the row, but the code strips the value, finds it empty, skips the row
and returns 0. -/
theorem c6_whitespace_value_counterexample :
    (cellAt sheetBlankValueRow 2 "A").value = some " " ∧
    (" " : String) ≠ "" ∧
    get_cell_formula_simple (cellAt sheetBlankValueRow 2 "A") = none ∧
    copy_sheet_data sheetBlankValueRow gws0 ["A"] ["A"] 2 none = .ok (0, none) :=
  ⟨rfl, by decide, rfl, rfl⟩

/-- A successful mapM over Except preserves the list length. -/
theorem mapM_ok_length {α β : Type} (f : α → Except String β) :
    ∀ (l : List α) (l2 : List β), l.mapM f = .ok l2 → l2.length = l.length := by
  intro l
  induction l with
  | nil =>
    intro l2 h
    rw [List.mapM_nil] at h
    cases h
    rfl
  | cons a as ih =>
    intro l2 h
    rw [List.mapM_cons] at h
    cases hfa : f a with
    | error e => rw [hfa] at h; cases h
    | ok b =>
      rw [hfa] at h
      cases hrest : as.mapM f with
      | error e => rw [hrest] at h; cases h
      | ok bs =>
        rw [hrest] at h
        cases h
        simp [ih bs hrest]

/-- The foldl minimum is a lower bound of its initial value and every
traversed element. -/
theorem listMin1_le_mem :
    ∀ (rest : List Nat) (c0 : Nat), ∀ c ∈ c0 :: rest, listMin1 c0 rest ≤ c := by
  intro rest
  induction rest with
  | nil =>
    intro c0 c hc
    rcases List.mem_cons.1 hc with h | h
    · exact h ▸ Nat.le_refl c0
    · cases h
  | cons x xs ih =>
    intro c0 c hc
    have step : listMin1 c0 (x :: xs) = listMin1 (Nat.min c0 x) xs := rfl
    rcases List.mem_cons.1 hc with h | h
    · subst h
      calc listMin1 c (x :: xs) = listMin1 (Nat.min c x) xs := rfl
        _ ≤ Nat.min c x := ih (Nat.min c x) _ (List.mem_cons_self _ _)
        _ ≤ c := Nat.min_le_left c x
    · rcases List.mem_cons.1 h with h2 | h2
      · subst h2
        calc listMin1 c0 (c :: xs) = listMin1 (Nat.min c0 c) xs := rfl
          _ ≤ Nat.min c0 c := ih (Nat.min c0 c) _ (List.mem_cons_self _ _)
          _ ≤ c := Nat.min_le_right c0 c
      · exact step ▸ ih (Nat.min c0 x) c (List.mem_cons_of_mem _ h2)

/-- The foldl maximum is an upper bound of its initial value and every
traversed element. -/
theorem le_listMax1_of_mem :
    ∀ (rest : List Nat) (c0 : Nat), ∀ c ∈ c0 :: rest, c ≤ listMax1 c0 rest := by
  intro rest
  induction rest with
  | nil =>
    intro c0 c hc
    rcases List.mem_cons.1 hc with h | h
    · exact h ▸ Nat.le_refl c0
    · cases h
  | cons x xs ih =>
    intro c0 c hc
    have step : listMax1 c0 (x :: xs) = listMax1 (Nat.max c0 x) xs := rfl
    rcases List.mem_cons.1 hc with h | h
    · subst h
      calc c ≤ Nat.max c x := Nat.le_max_left c x
        _ ≤ listMax1 (Nat.max c x) xs := ih (Nat.max c x) _ (List.mem_cons_self _ _)
        _ = listMax1 c (x :: xs) := rfl
    · rcases List.mem_cons.1 h with h2 | h2
      · subst h2
        calc c ≤ Nat.max c0 c := Nat.le_max_right c0 c
          _ ≤ listMax1 (Nat.max c0 c) xs := ih (Nat.max c0 c) _ (List.mem_cons_self _ _)
          _ = listMax1 c0 (c :: xs) := rfl
      · exact step ▸ ih (Nat.max c0 x) c (List.mem_cons_of_mem _ h2)

/-- Folding cell writes over a row preserves the accumulator length. -/
theorem foldl_set_length (l : List (String × Nat)) :
    ∀ acc : List String,
      (l.foldl (fun a p => a.set p.2 p.1) acc).length = acc.length := by
  induction l with
  | nil => intro acc; rfl
  | cons p rest ih =>
    intro acc
    rw [List.foldl_cons, ih, List.length_set]

/-- spreadRow always produces a row of the bounding-rectangle width. -/
theorem spreadRow_length (n : Nat) (imap : List Nat) (row : List String) :
    (spreadRow n imap row).length = n := by
  unfold spreadRow
  rw [foldl_set_length, List.length_replicate]

/-- An offset never written by the fold keeps its accumulator value. -/
theorem foldl_set_getD_unwritten (j : Nat) :
    ∀ (l : List (String × Nat)) (acc : List String), (∀ p ∈ l, p.2 ≠ j) →
      (l.foldl (fun a p => a.set p.2 p.1) acc).getD j "" = acc.getD j "" := by
  intro l
  induction l with
  | nil => intro acc _; rfl
  | cons p rest ih =>
    intro acc hp
    rw [List.foldl_cons, ih _ (fun q hq => hp q (List.mem_cons_of_mem _ hq))]
    rw [List.getD_eq_getElem?_getD, List.getD_eq_getElem?_getD,
        List.getElem?_set_ne (hp p (List.mem_cons_self p rest))]

/-- An offset outside the index map of a spread row holds the empty
string. -/
theorem spreadRow_getD_empty (n : Nat) (imap : List Nat) (row : List String)
    (j : Nat) (h : ∀ x ∈ imap, x ≠ j) :
    (spreadRow n imap row).getD j "" = "" := by
  unfold spreadRow
  rw [foldl_set_getD_unwritten j _ _ (fun p hp => h p.2 (List.of_mem_zip hp).2)]
  rw [List.getD_eq_getElem?_getD, List.getElem?_replicate]
  split <;> rfl

/-- With pairwise distinct in-bounds offsets, the fold places each
value at its own offset. -/
theorem foldl_set_getD_written :
    ∀ (imap : List Nat) (row : List String) (acc : List String),
      row.length = imap.length → imap.Nodup → (∀ x ∈ imap, x < acc.length) →
      ∀ i, i < imap.length →
        ((row.zip imap).foldl (fun a p => a.set p.2 p.1) acc).getD (imap.getD i 0) ""
          = row.getD i "" := by
  intro imap
  induction imap with
  | nil =>
    intro row acc _ _ _ i hi
    exact absurd hi (by simp)
  | cons x xs ih =>
    intro row acc hlen hnd hb i hi
    cases row with
    | nil => exact absurd hlen (by simp)
    | cons v vs =>
      rw [List.zip_cons_cons, List.foldl_cons]
      cases i with
      | zero =>
        rw [List.getD_cons_zero, List.getD_cons_zero]
        rw [foldl_set_getD_unwritten x _ _ ?hne]
        case hne =>
          intro p hp he
          exact (List.nodup_cons.1 hnd).1 (he ▸ (List.of_mem_zip hp).2)
        rw [List.getD_eq_getElem?_getD,
            List.getElem?_set_eq_of_lt v (hb x (List.mem_cons_self x xs))]
        rfl
      | succ i2 =>
        rw [List.getD_cons_succ, List.getD_cons_succ]
        refine ih vs (acc.set x v) ?_ (List.nodup_cons.1 hnd).2 ?_ i2 ?_
        · simpa using hlen
        · intro y hy
          rw [List.length_set]
          exact hb y (List.mem_cons_of_mem _ hy)
        · simpa using hi

/-- With pairwise distinct in-bounds offsets, a spread row carries each
value at its own offset. -/
theorem spreadRow_getD_written (n : Nat) (imap : List Nat) (row : List String)
    (hlen : row.length = imap.length) (hnd : imap.Nodup)
    (hb : ∀ x ∈ imap, x < n) (i : Nat) (hi : i < imap.length) :
    (spreadRow n imap row).getD (imap.getD i 0) "" = row.getD i "" := by
  unfold spreadRow
  refine foldl_set_getD_written imap row _ hlen hnd ?_ i hi
  intro x hx
  rw [List.length_replicate]
  exact hb x hx

/-- An empty scan span yields no retained rows. -/
theorem rowsData_empty_of_span (excel : ExcelWorksheet)
    (vals : Option ExcelWorksheet) (sc : List String) (sr : Nat)
    (h : excel.max_row < sr) : rowsData excel vals sc sr = [] := by
  unfold rowsData scannedRows
  rw [Nat.sub_eq_zero_of_le h]
  rfl

/-- Every retained row has one cell record per resolved source
column. -/
theorem rowsData_row_length (excel : ExcelWorksheet)
    (vals : Option ExcelWorksheet) (sc : List String) (sr : Nat)
    (row : List CellRecord) (h : row ∈ rowsData excel vals sc sr) :
    row.length = sc.length := by
  unfold rowsData at h
  obtain ⟨r, _, hr⟩ := List.mem_map.1 h
  rw [← hr]
  unfold readRow
  exact List.length_map _ _

/-- Inversion of a successful copy_sheet_data run: the checks it
passed, the returned count, and, when a write was issued, the exact
shape of the write call. -/
theorem copy_sheet_data_ok_inv
    (excel : ExcelWorksheet) (gws : GoogleWorksheet) (src tgt : List String)
    (sr : Nat) (vals : Option ExcelWorksheet) (k : Nat) (opt : Option WriteCall)
    (h : copy_sheet_data excel gws src tgt sr vals = .ok (k, opt)) :
    ∃ sc tc, resolve_excel_columns excel src = .ok sc ∧
      resolve_google_columns gws tgt = .ok tc ∧
      sc.length = tc.length ∧
      k = (rowsData excel vals sc sr).length ∧
      ∀ w, opt = some w → ∃ cols c0 crest,
        tc.mapM column_index_from_string = .ok cols ∧
        cols = c0 :: crest ∧
        w.start_col = listMin1 c0 crest ∧
        w.end_col = listMax1 c0 crest ∧
        w.start_row = sr ∧
        w.end_row = sr + k - 1 ∧
        w.values = (rowsData excel vals sc sr).map
          (fun row => spreadRow (listMax1 c0 crest - listMin1 c0 crest + 1)
            ((c0 :: crest).map (fun c => c - listMin1 c0 crest))
            (row.map renderCell)) := by
  simp only [copy_sheet_data] at h
  split at h
  · simp at h
  split at h
  · simp at h
  split at h
  · simp at h
  rename_i sc hsc
  split at h
  · simp at h
  rename_i tc htc
  refine ⟨sc, tc, hsc, htc, ?_⟩
  split at h
  · simp at h
  rename_i hlen
  rw [not_not] at hlen
  refine ⟨hlen, ?_⟩
  split at h
  · rename_i hspan
    simp only [Except.ok.injEq, Prod.mk.injEq] at h
    obtain ⟨hk, hopt⟩ := h
    refine ⟨?_, ?_⟩
    · rw [rowsData_empty_of_span excel vals sc sr hspan]
      exact hk.symm
    · intro w hw
      rw [← hopt] at hw
      simp at hw
  · split at h
    · rename_i hemp
      rw [List.isEmpty_iff, List.map_eq_nil_iff] at hemp
      simp only [Except.ok.injEq, Prod.mk.injEq] at h
      obtain ⟨hk, hopt⟩ := h
      refine ⟨?_, ?_⟩
      · rw [hemp]
        exact hk.symm
      · intro w hw
        rw [← hopt] at hw
        simp at hw
    · split at h
      · simp at h
      rename_i cols hmap
      split at h
      · simp at h
      rename_i c0 crest
      split at h
      · simp at h
      · simp at h
      rename_i hg1 hg2
      simp only [Except.ok.injEq, Prod.mk.injEq] at h
      obtain ⟨hk, hopt⟩ := h
      refine ⟨hk.symm, ?_⟩
      intro w hw
      rw [← hopt] at hw
      injection hw with hw2
      subst hw2
      refine ⟨c0 :: crest, c0, crest, hmap, rfl, rfl, rfl, rfl, ?_, ?_⟩
      · show sr + (List.map (fun row => List.map renderCell row)
            (rowsData excel vals sc sr)).length - 1 = sr + k - 1
        rw [List.length_map, hk]
      · show List.map _ (List.map (fun row => List.map renderCell row)
            (rowsData excel vals sc sr)) = _
        rw [List.map_map]
        rfl

/-- Bridging lemma: indexing a mapped list with getD inside bounds. -/
theorem getD_map_of_lt {α β : Type} [Inhabited β] (L : List α) (f : α → β)
    (d : β) (ridx : Nat) (h : ridx < L.length) :
    (L.map f).getD ridx d = f (L.get ⟨ridx, h⟩) := by
  rw [List.getD_eq_getElem _ _ (by simpa using h), List.getElem_map]
  rfl

/-! Claim C5. -/

/-- C5: row compaction.  Every successful write spans destination rows
start_row through start_row + k - 1 for the k retained rows, the value
matrix has exactly k rows, and its rows are the images, in source
order, of the retained source rows (rows with real data at or after
start_row) — skipped rows leave no gaps.  The claimed example sheet
(rows 1..4 of which only 2 and 4 hold data, start_row 1) yields exactly
2 populated destination rows at rows 1 and 2. -/
theorem c5_row_compaction :
    (∀ (excel : ExcelWorksheet) (gws : GoogleWorksheet) (src tgt : List String)
        (sr : Nat) (vals : Option ExcelWorksheet) (k : Nat) (w : WriteCall),
        copy_sheet_data excel gws src tgt sr vals = .ok (k, some w) →
        w.start_row = sr ∧ w.end_row = sr + k - 1 ∧ w.values.length = k ∧
        ∃ sc, resolve_excel_columns excel src = .ok sc ∧
          k = ((scannedRows excel sr).filter
                (fun r => rowHasData excel vals sc r)).length ∧
          ∃ g, w.values = ((scannedRows excel sr).filter
                (fun r => rowHasData excel vals sc r)).map g) ∧
    copy_sheet_data sheetGappyRows gws0 ["A"] ["A"] 1 none =
      .ok (2, some { start_col := 1, end_col := 1, start_row := 1, end_row := 2,
                     target_range := "A1:A2", values := [["x"], ["y"]] }) := by
  constructor
  · intro excel gws src tgt sr vals k w hcopy
    obtain ⟨sc, tc, hsc, htc, hlen, hk, hw⟩ :=
      copy_sheet_data_ok_inv excel gws src tgt sr vals k (some w) hcopy
    obtain ⟨cols, c0, crest, hmap, hcols, h1, h2, h3, h4, h5⟩ := hw w rfl
    refine ⟨h3, h4, ?_, sc, hsc, ?_, ?_⟩
    · rw [h5, List.length_map]
      exact hk.symm
    · rw [hk]
      unfold rowsData
      rw [List.length_map]
    · refine ⟨fun r => spreadRow (listMax1 c0 crest - listMin1 c0 crest + 1)
        ((c0 :: crest).map (fun c => c - listMin1 c0 crest))
        ((readRow excel vals sc r).map renderCell), ?_⟩
      rw [h5]
      unfold rowsData
      rw [List.map_map]
      rfl
  · rfl

/-- C5 witness: the example sheet run, with the retained-row count
extracted through the theorem. -/
theorem c5_row_compaction_witness :
    copy_sheet_data sheetGappyRows gws0 ["A"] ["A"] 1 none =
      .ok (2, some { start_col := 1, end_col := 1, start_row := 1, end_row := 2,
                     target_range := "A1:A2", values := [["x"], ["y"]] }) ∧
    ∃ sc, resolve_excel_columns sheetGappyRows ["A"] = .ok sc ∧
      2 = ((scannedRows sheetGappyRows 1).filter
            (fun r => rowHasData sheetGappyRows none sc r)).length := by
  refine ⟨rfl, ?_⟩
  obtain ⟨_, _, _, sc, hsc, hcount, _⟩ :=
    c5_row_compaction.1 sheetGappyRows gws0 ["A"] ["A"] 1 none 2
      { start_col := 1, end_col := 1, start_row := 1, end_row := 2,
        target_range := "A1:A2", values := [["x"], ["y"]] } rfl
  exact ⟨sc, hsc, hcount⟩

/-! Claim C6 (amended theorem). -/

/-- C6 (amended): copy_sheet_data returns exactly the number of
retained rows, where a row is retained iff some cell has a non-None
formula or a non-None value whose stripped string form is nonempty
(rowHasData); and when max_row < start_row the, result is the
informational non-error 0 with no write. -/
theorem c6_retained_row_count :
    (∀ (excel : ExcelWorksheet) (gws : GoogleWorksheet) (src tgt : List String)
        (sr : Nat) (vals : Option ExcelWorksheet) (k : Nat) (opt : Option WriteCall),
        copy_sheet_data excel gws src tgt sr vals = .ok (k, opt) →
        ∃ sc, resolve_excel_columns excel src = .ok sc ∧
          k = ((scannedRows excel sr).filter
                (fun r => rowHasData excel vals sc r)).length) ∧
    (∀ (excel : ExcelWorksheet) (gws : GoogleWorksheet) (src tgt : List String)
        (sr : Nat) (vals : Option ExcelWorksheet) (sc tc : List String),
        excel.data_only = false →
        (∀ vs, vals = some vs → vs.data_only = true) →
        resolve_excel_columns excel src = .ok sc →
        resolve_google_columns gws tgt = .ok tc →
        sc.length = tc.length →
        excel.max_row < sr →
        copy_sheet_data excel gws src tgt sr vals = .ok (0, none)) := by
  constructor
  · intro excel gws src tgt sr vals k opt h
    obtain ⟨sc, tc, hsc, htc, hlen, hk, _⟩ :=
      copy_sheet_data_ok_inv excel gws src tgt sr vals k opt h
    refine ⟨sc, hsc, ?_⟩
    rw [hk]
    unfold rowsData
    rw [List.length_map]
  · intro excel gws src tgt sr vals sc tc hd hv hsc htc hlen hspan
    unfold copy_sheet_data
    rw [hd, hsc, htc]
    cases vals with
    | none => simp [hlen, hspan]
    | some vs => simp [hv vs rfl, hlen, hspan]

/-- C6 witness: the whitespace-value sheet returns 0 retained rows,
and an empty scan span returns the informational 0 with no write. -/
theorem c6_retained_row_count_witness :
    (∃ sc, resolve_excel_columns sheetBlankValueRow ["A"] = .ok sc ∧
       0 = ((scannedRows sheetBlankValueRow 2).filter
             (fun r => rowHasData sheetBlankValueRow none sc r)).length) ∧
    copy_sheet_data sheetOneDataRow gws0 ["A"] ["A"] 5 none = .ok (0, none) :=
  ⟨c6_retained_row_count.1 sheetBlankValueRow gws0 ["A"] ["A"] 2 none 0 none rfl,
   c6_retained_row_count.2 sheetOneDataRow gws0 ["A"] ["A"] 5 none ["A"] ["A"] rfl
     (fun vs h => nomatch h) rfl rfl rfl (by decide)⟩

/-! Claim C7. -/

/-- C7: every issued write is a full bounding rectangle: each matrix
row spans exactly the min-to-max target column range, every offset of
the span whose absolute column is not a target column is written as the
empty string (overwritten, not skipped), and — when the target column
indices are pairwise distinct — each retained row's rendered values sit
at their own column offsets within the span. -/
theorem c7_full_rectangle_write :
    ∀ (excel : ExcelWorksheet) (gws : GoogleWorksheet) (src tgt : List String)
      (sr : Nat) (vals : Option ExcelWorksheet) (k : Nat) (w : WriteCall),
      copy_sheet_data excel gws src tgt sr vals = .ok (k, some w) →
      ∃ sc tc cols,
        resolve_excel_columns excel src = .ok sc ∧
        resolve_google_columns gws tgt = .ok tc ∧
        tc.mapM column_index_from_string = .ok cols ∧
        (∀ c ∈ cols, w.start_col ≤ c ∧ c ≤ w.end_col) ∧
        (∀ r ∈ w.values,
          r.length = w.end_col - w.start_col + 1 ∧
          ∀ j, w.start_col + j ∉ cols → r.getD j "" = "") ∧
        (cols.Nodup →
          w.values.length = (valuesToUpdate excel vals sc sr).length ∧
          ∀ ridx i, ridx < w.values.length → i < cols.length →
            (w.values.getD ridx []).getD (cols.getD i 0 - w.start_col) ""
              = ((valuesToUpdate excel vals sc sr).getD ridx []).getD i "") := by
  intro excel gws src tgt sr vals k w hcopy
  obtain ⟨sc, tc, hsc, htc, hlen, hk, hw⟩ :=
    copy_sheet_data_ok_inv excel gws src tgt sr vals k (some w) hcopy
  obtain ⟨cols, c0, crest, hmap, hcols, h1, h2, h3, h4, h5⟩ := hw w rfl
  subst hcols
  have hclen : (c0 :: crest).length = tc.length := mapM_ok_length _ tc _ hmap
  refine ⟨sc, tc, c0 :: crest, hsc, htc, hmap, ?_, ?_, ?_⟩
  · intro c hc
    rw [h1, h2]
    exact ⟨listMin1_le_mem crest c0 c hc, le_listMax1_of_mem crest c0 c hc⟩
  · intro r hr
    rw [h5] at hr
    obtain ⟨row, hrow, hrw⟩ := List.mem_map.1 hr
    constructor
    · rw [← hrw, spreadRow_length, h1, h2]
    · intro j hj
      rw [← hrw]
      apply spreadRow_getD_empty
      intro x hx hxj
      obtain ⟨c, hc, hcx⟩ := List.mem_map.1 hx
      have hmn := listMin1_le_mem crest c0 c hc
      have hceq : c = w.start_col + j := by
        rw [h1]
        omega
      exact hj (hceq ▸ hc)
  · intro hnd
    have hval : valuesToUpdate excel vals sc sr =
        (rowsData excel vals sc sr).map (fun row => row.map renderCell) := rfl
    have hwl : w.values.length = (rowsData excel vals sc sr).length := by
      rw [h5, List.length_map]
    constructor
    · rw [hwl, hval, List.length_map]
    · intro ridx i hridx hi
      have hridx2 : ridx < (rowsData excel vals sc sr).length := by
        rw [← hwl]
        exact hridx
      have hLW : w.values.getD ridx [] =
          spreadRow (listMax1 c0 crest - listMin1 c0 crest + 1)
            ((c0 :: crest).map (fun c => c - listMin1 c0 crest))
            (((rowsData excel vals sc sr).get ⟨ridx, hridx2⟩).map renderCell) := by
        rw [h5]
        exact getD_map_of_lt _ _ _ ridx hridx2
      have hRW : (valuesToUpdate excel vals sc sr).getD ridx [] =
          ((rowsData excel vals sc sr).get ⟨ridx, hridx2⟩).map renderCell := by
        rw [hval]
        exact getD_map_of_lt _ _ _ ridx hridx2
      rw [hLW, hRW]
      have himap : ((c0 :: crest).map (fun c => c - listMin1 c0 crest)).getD i 0
          = (c0 :: crest).getD i 0 - w.start_col := by
        rw [h1, List.getD_eq_getElem _ _ (by simpa using hi),
            List.getD_eq_getElem _ _ hi, List.getElem_map]
      rw [← himap]
      apply spreadRow_getD_written
      · rw [List.length_map, List.length_map]
        have hrl := rowsData_row_length excel vals sc sr _
          (List.get_mem (rowsData excel vals sc sr) ridx hridx2)
        rw [hrl, hlen, ← hclen]
      · refine List.Nodup.map_on ?_ hnd
        intro x hx y hy hxy
        have h1x := listMin1_le_mem crest c0 x hx
        have h1y := listMin1_le_mem crest c0 y hy
        omega
      · intro x hx
        obtain ⟨c, hc, hcx⟩ := List.mem_map.1 hx
        have hle := le_listMax1_of_mem crest c0 c hc
        have hge := listMin1_le_mem crest c0 c hc
        omega
      · rw [List.length_map]
        exact hi

/-- C7 witness: a concrete two-target-column write (targets C and A,
span A..C) whose middle column B is overwritten with empty strings and
whose values sit at their own offsets. -/
theorem c7_full_rectangle_write_witness :
    copy_sheet_data sheetGappyRows gws0 ["A", "A"] ["C", "A"] 1 none =
      .ok (2, some { start_col := 1, end_col := 3, start_row := 1, end_row := 2,
                     target_range := "A1:C2",
                     values := [["x", "", "x"], ["y", "", "y"]] }) ∧
    ∃ sc tc cols,
      resolve_excel_columns sheetGappyRows ["A", "A"] = .ok sc ∧
      resolve_google_columns gws0 ["C", "A"] = .ok tc ∧
      tc.mapM column_index_from_string = .ok cols ∧
      (∀ r ∈ ({ start_col := 1, end_col := 3, start_row := 1, end_row := 2,
                target_range := "A1:C2",
                values := [["x", "", "x"], ["y", "", "y"]] } : WriteCall).values,
        r.length = 3 ∧ ∀ j, 1 + j ∉ cols → r.getD j "" = "") := by
  refine ⟨rfl, ?_⟩
  obtain ⟨sc, tc, cols, hsc, htc, hmap, _, hrows, _⟩ :=
    c7_full_rectangle_write sheetGappyRows gws0 ["A", "A"] ["C", "A"] 1 none 2
      { start_col := 1, end_col := 3, start_row := 1, end_row := 2,
        target_range := "A1:C2", values := [["x", "", "x"], ["y", "", "y"]] } rfl
  exact ⟨sc, tc, cols, hsc, htc, hmap, hrows⟩

/-! Claim C1 (amended theorem). -/

/-- An ASCII alphabetic character is not a digit. -/
theorem char_alpha_not_digit (c : Char) (h : c.isAlpha = true) :
    c.isDigit = false := by
  unfold Char.isAlpha Char.isUpper Char.isLower at h
  unfold Char.isDigit
  simp only [Bool.or_eq_true, Bool.and_eq_true, decide_eq_true_eq] at h
  refine Bool.and_eq_false_iff.2 (Or.inr ?_)
  simp only [decide_eq_false_iff_not]
  intro hc
  have hcn : c.val.toNat ≤ (57 : UInt32).toNat := hc
  have h57 : (57 : UInt32).toNat = 57 := by decide
  rcases h with ⟨h1, h2⟩ | ⟨h1, h2⟩
  · have h1n : (65 : UInt32).toNat ≤ c.val.toNat := h1
    have h65 : (65 : UInt32).toNat = 65 := by decide
    omega
  · have h1n : (97 : UInt32).toNat ≤ c.val.toNat := h1
    have h97 : (97 : UInt32).toNat = 97 := by decide
    omega

/-- A string with no range delimiter has no range split. -/
theorem splitRange_none (s : String)
    (hd : s.data.contains '-' = false) (hc : s.data.contains ':' = false) :
    splitRange s = none := by
  unfold splitRange
  rw [hd, hc]
  rfl

/-- A nonempty delimiter-free specifier takes the non-range branches
of the resolver, in source order: digit test, alphabetic test, header
lookup. -/
theorem resolveSpecF_plain (hm : List (String × String)) (nf : String → String)
    (fuel : Nat) (s : String)
    (hne : ¬ pyStrip s = "")
    (hd : (pyStrip s).data.contains '-' = false)
    (hc : (pyStrip s).data.contains ':' = false) :
    resolveSpecF hm nf (fuel + 1) s =
      (if pyIsdigit (pyStrip s) then do
          let letter ← get_column_letter (pyInt (pyStrip s))
          .ok [letter]
        else if pyIsalpha (pyStrip s) then .ok [pyUpper (pyStrip s)]
        else match dictGet hm (pyLower (pyStrip s)) with
          | some letter => .ok [letter]
          | none => .error (nf s)) := by
  simp only [resolveSpecF]
  rw [if_neg hne, splitRange_none _ hd hc]

/-- A nonempty all-alphabetic specifier cannot be all-digit. -/
theorem pyIsalpha_not_pyIsdigit (t : String) (ha : pyIsalpha t = true) :
    pyIsdigit t = false := by
  unfold pyIsdigit
  unfold pyIsalpha at ha
  cases hdata : t.data with
  | nil => rfl
  | cons ch cs =>
    rw [hdata] at ha
    simp only [List.all_cons, Bool.and_eq_true] at ha
    simp only [List.all_cons]
    rw [char_alpha_not_digit ch ha.2.1]
    simp

/-- One delimiter-free all-alphabetic specifier of any length resolves
to its uppercased literal self, whatever the header map holds. -/
theorem resolveSpecF_alpha (hm : List (String × String)) (nf : String → String)
    (s : String)
    (ha : pyIsalpha (pyStrip s) = true)
    (hd : (pyStrip s).data.contains '-' = false)
    (hc : (pyStrip s).data.contains ':' = false) :
    resolveSpecF hm nf (s.length + 1) s = .ok [pyUpper (pyStrip s)] := by
  have hne : ¬ pyStrip s = "" := by
    intro he
    rw [he] at ha
    exact absurd ha (by decide)
  rw [resolveSpecF_plain hm nf s.length s hne hd hc,
      pyIsalpha_not_pyIsdigit (pyStrip s) ha, ha]
  rfl

/-- Resolution of a one-specifier list reduces to the one specifier. -/
theorem resolveColumnsCore_singleton (hm : List (String × String))
    (nf : String → String) (s : String) (p : List String)
    (h : resolveSpecF hm nf (s.length + 1) s = .ok p) :
    resolveColumnsCore hm nf [s] = .ok p := by
  unfold resolveColumnsCore
  rw [List.mapM_cons, h, List.mapM_nil]
  show Except.ok (p ++ []) = Except.ok p
  rw [List.append_nil]

/-- C1 (amended): the resolver precedence is range syntax first, then
all-digit specifiers as 1-based indices, then all-alphabetic
specifiers OF ANY LENGTH as literal column letters (uppercased,
independently of the header row), and header-row lookup only for the
remaining specifiers (those containing a non-alphanumeric character
other than a range delimiter).  The specifier 1-3 resolves to A, B, C
on any sheet; an all-alphabetic specifier such as Revenue never
reaches the header lookup. -/
theorem c1_specifier_precedence :
    (∀ (sheet : ExcelWorksheet) (s : String),
        pyIsalpha (pyStrip s) = true →
        (pyStrip s).data.contains '-' = false →
        (pyStrip s).data.contains ':' = false →
        resolve_excel_columns sheet [s] = .ok [pyUpper (pyStrip s)]) ∧
    (∀ (ws : GoogleWorksheet) (s : String),
        pyIsalpha (pyStrip s) = true →
        (pyStrip s).data.contains '-' = false →
        (pyStrip s).data.contains ':' = false →
        resolve_google_columns ws [s] = .ok [pyUpper (pyStrip s)]) ∧
    (∀ sheet : ExcelWorksheet,
        resolve_excel_columns sheet ["1-3"] = .ok ["A", "B", "C"]) ∧
    (∀ (sheet : ExcelWorksheet) (s L : String),
        pyStrip s ≠ "" →
        (pyStrip s).data.contains '-' = false →
        (pyStrip s).data.contains ':' = false →
        pyIsdigit (pyStrip s) = false →
        pyIsalpha (pyStrip s) = false →
        dictGet (excelHeaderMap sheet.row1) (pyLower (pyStrip s)) = some L →
        resolve_excel_columns sheet [s] = .ok [L]) := by
  refine ⟨?_, ?_, fun _ => rfl, ?_⟩
  · intro sheet s ha hd hc
    exact resolveColumnsCore_singleton _ _ s _ (resolveSpecF_alpha _ _ s ha hd hc)
  · intro ws s ha hd hc
    exact resolveColumnsCore_singleton _ _ s _ (resolveSpecF_alpha _ _ s ha hd hc)
  · intro sheet s L hne hd hc hdig halpha hget
    refine resolveColumnsCore_singleton _ _ s _ ?_
    rw [resolveSpecF_plain _ _ s.length s hne hd hc, hdig, halpha, hget]
    rfl

/-- C1 witness: the literal-letter branch on the 7-character specifier
Revenue (both resolvers), and the header branch on the specifier
Total Rev. -/
theorem c1_specifier_precedence_witness :
    resolve_excel_columns revSheet ["Revenue"] = .ok [pyUpper (pyStrip "Revenue")] ∧
    resolve_google_columns gws0 ["Revenue"] = .ok [pyUpper (pyStrip "Revenue")] ∧
    resolve_excel_columns headerSheet ["Total Rev"] = .ok ["A"] :=
  ⟨c1_specifier_precedence.1 revSheet "Revenue" (by decide) (by decide) (by decide),
   c1_specifier_precedence.2.1 gws0 "Revenue" (by decide) (by decide) (by decide),
   c1_specifier_precedence.2.2.2 headerSheet "Total Rev" "A" (by decide) (by decide)
     (by decide) (by decide) (by decide) rfl⟩
